import Mathlib

/-!
Shallow embedding of `src/transcriber/server.py` (Flux Transcription Server).

The server exposes two endpoints on a single-threaded HTTP server:
GET /health and POST /transcribe.  Request bodies are byte lists, responses
are JSON texts produced by a model of Python's `json.dumps` (default
`ensure_ascii=True`) restricted to the string-to-string dictionaries the
server actually serializes.  External effects (the `transformers` pipeline,
`tempfile.mkstemp`, file writes, the socket byte stream) are supplied by an
environment record, each modelled as an `Except String _` ("raised exception
carrying `str(exc)`" versus normal result).  The filesystem is a partial map
from paths to byte contents so that temporary-file creation and removal are
observable.
-/

namespace Flux

/-- Bytes are modelled as natural numbers (values 0..255 in practice). -/
abbrev Byte := Nat

deriving instance DecidableEq for Except

/-- `MODEL_NAME` constant from the source. -/
def MODEL_NAME : String := "nvidia/parakeet-ctc-0.6b"

/-- `HOST` constant from the source. -/
def HOST : String := "127.0.0.1"

/-- `PORT` constant from the source. -/
def PORT : Nat := 7848

/-! ### Python `json.dumps` for string-to-string dictionaries -/

/-- Four lowercase hex digits, as in Python's `\uXXXX` escapes. -/
def hex4 (n : Nat) : String :=
  String.mk [Nat.digitChar (n / 4096 % 16), Nat.digitChar (n / 256 % 16),
    Nat.digitChar (n / 16 % 16), Nat.digitChar (n % 16)]

/-- Python `ensure_ascii` escape for a code point outside the printable ASCII
range: `\uXXXX`, using a UTF-16 surrogate pair above `0xFFFF`. -/
def uEscape (n : Nat) : String :=
  if n < 65536 then "\\u" ++ hex4 n
  else
    "\\u" ++ hex4 (55296 + (n - 65536) / 1024) ++ "\\u" ++ hex4 (56320 + (n - 65536) % 1024)

/-- Escaping of one character inside a JSON string, as Python's `json.dumps`
does by default: the two-character escapes for backslash, double quote,
backspace, form feed, newline, carriage return and tab, `\uXXXX` for any other
character outside `0x20..0x7e`, and the character itself otherwise. -/
def jsonEscapeChar (c : Char) : String :=
  if c.toNat = 92 then "\\\\"
  else if c.toNat = 34 then "\\\""
  else if c.toNat = 10 then "\\n"
  else if c.toNat = 13 then "\\r"
  else if c.toNat = 9 then "\\t"
  else if c.toNat = 8 then "\\b"
  else if c.toNat = 12 then "\\f"
  else if c.toNat < 32 ∨ 126 < c.toNat then uEscape c.toNat
  else String.singleton c

/-- A Python JSON string literal: quote, escaped characters, quote. -/
def jsonString (s : String) : String :=
  "\"" ++ String.join (s.data.map jsonEscapeChar) ++ "\""

/-- `json.dumps` on a dictionary with string keys and string values, with the
default separators: key-value pairs `"k": "v"` joined by `, ` between braces.
All dictionaries the server serializes have this shape. -/
def jsonDumps (data : List (String × String)) : String :=
  "\x7b" ++ String.intercalate ", "
    (data.map (fun kv => jsonString kv.1 ++ ": " ++ jsonString kv.2)) ++ "\x7d"

/-! ### HTTP responses and `_send_json` -/

/-- An HTTP response as assembled by the handler: status code, headers in the
order they are sent, and the body text (the bytes written to the socket are
its UTF-8 encoding). -/
structure HttpResponse where
  status : Nat
  headers : List (String × String)
  body : String
deriving DecidableEq

/-- `TranscribeHandler._send_json`: serialize the dictionary, send the status
code, a `Content-Type: application/json` header and a `Content-Length` header
equal to the length of the UTF-8 encoding of the body, then the body. -/
def sendJson (statusCode : Nat) (data : List (String × String)) : HttpResponse :=
  let body := jsonDumps data
  { status := statusCode
    headers := [("Content-Type", "application/json"),
      ("Content-Length", toString body.utf8ByteSize)]
    body := body }

/-- Value of the first header with the given name, if any. -/
def headerValue (r : HttpResponse) (name : String) : Option String :=
  (r.headers.find? (fun kv => kv.1 == name)).map Prod.snd

/-! ### `GET /health` -/

/-- `TranscribeHandler.do_GET`: 200 with a ready status on the exact path
`/health`, 404 with a not-found error otherwise. -/
def do_GET (path : String) : HttpResponse :=
  if path = "/health" then sendJson 200 [("status", "ready")]
  else sendJson 404 [("error", "not found")]

/-! ### Python `int()` on the Content-Length header -/

/-- Decimal value of a digit list, most significant first. -/
def digitsVal (cs : List Char) : Nat :=
  cs.foldl (fun acc c => acc * 10 + (c.toNat - 48)) 0

/-- ASCII whitespace, the part of Python's `str.strip` default character set
relevant to HTTP header values. -/
def isPySpace (c : Char) : Bool :=
  c.toNat = 32 ∨ c.toNat = 9 ∨ c.toNat = 10 ∨ c.toNat = 11 ∨ c.toNat = 12 ∨ c.toNat = 13

/-- Whitespace stripped from both ends, as `int()` does before parsing. -/
def pyStrip (cs : List Char) : List Char :=
  ((cs.dropWhile isPySpace).reverse.dropWhile isPySpace).reverse

/-- Message of the `ValueError` raised by `int()` on a bad literal. -/
def intErrorMessage (s : String) : String :=
  "invalid literal for int() with base 10: " ++ s

/-- Python's built-in `int()` on a string, base 10: surrounding whitespace is
stripped, an optional single sign is followed by a nonempty run of decimal
digits; anything else raises `ValueError`.  (Digit-grouping underscores and
non-ASCII digits, which the server never receives from a well-formed header,
are not modelled.) -/
def pyIntOfString (s : String) : Except String Int :=
  let cs := pyStrip s.data
  match cs with
  | [] => .error (intErrorMessage s)
  | c :: rest =>
    if c.toNat = 45 then
      if rest ≠ [] ∧ rest.all Char.isDigit then .ok (-(digitsVal rest : Int))
      else .error (intErrorMessage s)
    else if c.toNat = 43 then
      if rest ≠ [] ∧ rest.all Char.isDigit then .ok (digitsVal rest : Int)
      else .error (intErrorMessage s)
    else
      if cs.all Char.isDigit then .ok (digitsVal cs : Int)
      else .error (intErrorMessage s)

/-- `int(self.headers.get("Content-Length", 0))`: when the header is absent
`get` returns the integer `0` and `int` is the identity on it; when present,
the header string is parsed by `int()`. -/
def getContentLength (header : Option String) : Except String Int :=
  match header with
  | none => .ok 0
  | some s => pyIntOfString s

/-- `self.rfile.read(n)` on a buffered stream: a non-negative count reads that
many bytes (fewer if the stream ends first), a negative count reads the whole
stream. -/
def pyRead (stream : List Byte) (n : Int) : List Byte :=
  if n < 0 then stream else stream.take n.toNat

/-! ### Filesystem and the request environment -/

/-- The filesystem: a partial map from paths to file contents. -/
def Fs : Type := String → Option (List Byte)

/-- Create or overwrite a file. -/
def fsWrite (fs : Fs) (path : String) (contents : List Byte) : Fs :=
  fun q => if q = path then some contents else fs q

/-- `os.remove`. -/
def fsRemove (fs : Fs) (path : String) : Fs :=
  fun q => if q = path then none else fs q

/-- External effects of one `POST` request: the `Content-Length` header, the
socket byte stream, the outcome of `tempfile.mkstemp` (a fresh path, or an
exception), the outcome of writing the audio bytes to that file, and the
behaviour of the loaded `pipe` as a function of the contents of the file it is
given (`.ok (some t)` a truthy result carrying `result["text"] = t`, `.ok
none` a falsy result, `.error e` an exception with message `e`). -/
structure PostEnv where
  contentLengthHeader : Option String
  stream : List Byte
  mkstempResult : Except String String
  writeResult : Except String Unit
  pipeFn : List Byte → Except String (Option String)

/-- Outcome of the `try` block of `do_POST`: the response it computed or the
exception it raised, the filesystem it left, the value of `tmp_path`, and the
file contents handed to `pipe` (`none` when `pipe` was never reached). -/
structure TryRun where
  outcome : Except String HttpResponse
  fs : Fs
  tmpPath : Option String
  piped : Option (List Byte)

/-- The `try` block of `TranscribeHandler.do_POST`, step by step: parse the
`Content-Length` header with `int()`, read that many body bytes, create a
temporary file with `mkstemp` (which creates an empty file and sets
`tmp_path`), write the audio bytes to it, run `pipe` on the file, and take
`result["text"]` when the result is truthy and `""` when it is falsy.  Each
step's exception aborts the block with that exception. -/
def postTry (env : PostEnv) (fs : Fs) : TryRun :=
  match getContentLength env.contentLengthHeader with
  | .error e => ⟨.error e, fs, none, none⟩
  | .ok n =>
    let audio := pyRead env.stream n
    match env.mkstempResult with
    | .error e => ⟨.error e, fs, none, none⟩
    | .ok p =>
      let fs1 := fsWrite fs p []
      match env.writeResult with
      | .error e => ⟨.error e, fs1, some p, none⟩
      | .ok _ =>
        let fs2 := fsWrite fs1 p audio
        let contents := (fs2 p).getD []
        match env.pipeFn contents with
        | .error e => ⟨.error e, fs2, some p, some contents⟩
        | .ok result =>
          let text := match result with
            | some t => t
            | none => ""
          ⟨.ok (sendJson 200 [("text", text)]), fs2, some p, some contents⟩

/-- Observable result of one `do_POST` call: the response written to the
socket, the final filesystem, and (for the theorems) the `tmp_path` and piped
bytes of the run. -/
structure PostRun where
  response : HttpResponse
  fs : Fs
  tmpPath : Option String
  piped : Option (List Byte)

/-- `TranscribeHandler.do_POST`: a path other than `/transcribe` is answered
404 immediately; otherwise the `try` block runs, an exception is turned into a
500 response carrying `str(exc)` under the key `error`, and the `finally`
clause removes the temporary file when `tmp_path` is truthy (set and nonempty)
and the file exists. -/
def do_POST (env : PostEnv) (path : String) (fs : Fs) : PostRun :=
  if path ≠ "/transcribe" then
    ⟨sendJson 404 [("error", "not found")], fs, none, none⟩
  else
    let t := postTry env fs
    let resp := match t.outcome with
      | .ok r => r
      | .error e => sendJson 500 [("error", e)]
    let fsFinal := match t.tmpPath with
      | some p => if p ≠ "" ∧ (t.fs p).isSome then fsRemove t.fs p else t.fs
      | none => t.fs
    ⟨resp, fsFinal, t.tmpPath, t.piped⟩

/-! ### Startup: loading the model -/

/-- Message printed before the load. -/
def loadingMessage : String := "Loading ASR model: " ++ MODEL_NAME ++ " ..."

/-- Diagnostic printed when the load raises, with `str(exc)` appended. -/
def loadFailureMessage (e : String) : String :=
  "Failed to load ASR model from local cache. Run transcriber/setup.sh to download it.\nError: " ++ e

/-- Message printed after a successful load. -/
def loadedMessage : String := "Model loaded successfully."

/-- What startup printed and whether the process survived to define the
handler and reach `main`. -/
structure StartupRun where
  printed : List String
  outcome : Except String Unit

/-- Module-level startup of `server.py`: print the loading message, attempt
the `pipeline(...)` call; on an exception print the diagnostic and re-raise
(aborting the process), on success print the loaded message and continue. -/
def startup (load : Except String Unit) : StartupRun :=
  match load with
  | .ok _ => ⟨[loadingMessage, loadedMessage], .ok ()⟩
  | .error e => ⟨[loadingMessage, loadFailureMessage e], .error e⟩

/-- The request-serving loop (`serve_forever`) runs only when startup
completed without an exception. -/
def reachesServeLoop (load : Except String Unit) : Bool :=
  match (startup load).outcome with
  | .ok _ => true
  | .error _ => false

/-! ### Concrete data used by the witness theorems -/

/-- The empty filesystem. -/
def fs0 : Fs := fun _ => none

/-- A concrete temporary path as `mkstemp` would return. -/
def tmpA : String := "/tmp/flux0.wav"

/-- A request whose pipeline succeeds with the transcript `"hi"`. -/
def envPipeOk : PostEnv :=
  ⟨some "3", [10, 20, 30, 40], .ok tmpA, .ok (), fun _ => .ok (some "hi")⟩

/-- A request whose pipeline raises with message `"bad audio"`. -/
def envPipeErr : PostEnv :=
  ⟨some "2", [7, 8, 9], .ok tmpA, .ok (), fun _ => .error "bad audio"⟩

/-- A request with no `Content-Length` header whose pipeline returns a falsy
result. -/
def envPipeNone : PostEnv :=
  ⟨none, [], .ok tmpA, .ok (), fun _ => .ok none⟩

/-- A request whose `Content-Length` header is not a number. -/
def envBadLen : PostEnv :=
  ⟨some "abc", [1], .ok tmpA, .ok (), fun _ => .ok none⟩

/-! ### Helper lemmas -/

/-- Reading a file just written returns what was written. -/
theorem fsWrite_self (fs : Fs) (p : String) (c : List Byte) : fsWrite fs p c p = some c := by
  simp [fsWrite]

/-- A removed file is gone. -/
theorem fsRemove_self (fs : Fs) (p : String) : fsRemove fs p p = none := by
  simp [fsRemove]

/-- The status of a `_send_json` response is the status it was given. -/
theorem sendJson_status (s : Nat) (d : List (String × String)) :
    (sendJson s d).status = s := rfl

/-- The body of a `_send_json` response is the serialized dictionary. -/
theorem sendJson_body (s : Nat) (d : List (String × String)) :
    (sendJson s d).body = jsonDumps d := rfl

/-- Every `_send_json` response carries `Content-Type: application/json`. -/
theorem sendJson_content_type (s : Nat) (d : List (String × String)) :
    headerValue (sendJson s d) "Content-Type" = some "application/json" := rfl

/-- Every `_send_json` response carries a `Content-Length` header equal to the
UTF-8 byte length of its body. -/
theorem sendJson_content_length (s : Nat) (d : List (String × String)) :
    headerValue (sendJson s d) "Content-Length" =
      some (toString (sendJson s d).body.utf8ByteSize) := rfl

/-- Reading zero bytes yields the empty byte list. -/
theorem pyRead_zero (stream : List Byte) : pyRead stream 0 = [] := by
  simp [pyRead]

/-- Unfolding of the `try` block when every step up to the pipeline succeeds
and the pipeline raises. -/
theorem postTry_pipe_error (env : PostEnv) (fs : Fs) (n : Int) (p : String) (u : Unit)
    (e : String)
    (hcl : getContentLength env.contentLengthHeader = .ok n)
    (hmk : env.mkstempResult = .ok p)
    (hw : env.writeResult = .ok u)
    (hpipe : env.pipeFn (pyRead env.stream n) = .error e) :
    postTry env fs = ⟨.error e, fsWrite (fsWrite fs p []) p (pyRead env.stream n),
      some p, some (pyRead env.stream n)⟩ := by
  unfold postTry
  simp only [hcl, hmk, hw, fsWrite_self, Option.getD_some, hpipe]

/-- Unfolding of the `try` block when every step succeeds: the response is a
200 whose `text` is the pipeline result when truthy and `""` when falsy. -/
theorem postTry_pipe_ok (env : PostEnv) (fs : Fs) (n : Int) (p : String) (u : Unit)
    (result : Option String)
    (hcl : getContentLength env.contentLengthHeader = .ok n)
    (hmk : env.mkstempResult = .ok p)
    (hw : env.writeResult = .ok u)
    (hpipe : env.pipeFn (pyRead env.stream n) = .ok result) :
    postTry env fs = ⟨.ok (sendJson 200 [("text", result.getD "")]),
      fsWrite (fsWrite fs p []) p (pyRead env.stream n),
      some p, some (pyRead env.stream n)⟩ := by
  unfold postTry
  simp only [hcl, hmk, hw, fsWrite_self, Option.getD_some, hpipe]
  cases result <;> rfl

/-- Whenever the run reaches the pipeline, the bytes handed to it are the
bytes read from the request body. -/
theorem postTry_piped (env : PostEnv) (fs : Fs) (n : Int) (p : String) (u : Unit)
    (hcl : getContentLength env.contentLengthHeader = .ok n)
    (hmk : env.mkstempResult = .ok p)
    (hw : env.writeResult = .ok u) :
    (postTry env fs).piped = some (pyRead env.stream n) := by
  rcases hpipe : env.pipeFn (pyRead env.stream n) with e | result
  · rw [postTry_pipe_error env fs n p u e hcl hmk hw hpipe]
  · rw [postTry_pipe_ok env fs n p u result hcl hmk hw hpipe]

/-- A successful `try` block always produced a 200 response whose body is a
JSON object with the single key `text`. -/
theorem postTry_ok_shape (env : PostEnv) (fs : Fs) (r : HttpResponse)
    (h : (postTry env fs).outcome = .ok r) :
    ∃ t, r = sendJson 200 [("text", t)] := by
  rcases hcl : getContentLength env.contentLengthHeader with e | n
  · simp [postTry, hcl] at h
  · rcases hmk : env.mkstempResult with e | p
    · simp [postTry, hcl, hmk] at h
    · rcases hw : env.writeResult with e | u
      · simp [postTry, hcl, hmk, hw] at h
      · rcases hpipe : env.pipeFn (pyRead env.stream n) with e | result
        · rw [postTry_pipe_error env fs n p u e hcl hmk hw hpipe] at h
          exact absurd h (by simp)
        · rw [postTry_pipe_ok env fs n p u result hcl hmk hw hpipe] at h
          injection h with h
          exact ⟨result.getD "", h.symm⟩

/-- `do_POST` on the `/transcribe` path, expressed through the `try` block:
the response is the block's response or the 500 built from its exception, and
the `finally` clause removes the temporary file when set, nonempty and
existing. -/
theorem do_POST_transcribe (env : PostEnv) (fs : Fs) :
    do_POST env "/transcribe" fs =
      ⟨(match (postTry env fs).outcome with
        | .ok r => r
        | .error e => sendJson 500 [("error", e)]),
       (match (postTry env fs).tmpPath with
        | some p => if p ≠ "" ∧ ((postTry env fs).fs p).isSome then
            fsRemove (postTry env fs).fs p else (postTry env fs).fs
        | none => (postTry env fs).fs),
       (postTry env fs).tmpPath, (postTry env fs).piped⟩ := rfl

/-- Every `do_POST` response is a `_send_json` response. -/
theorem do_POST_response_shape (env : PostEnv) (path : String) (fs : Fs) :
    ∃ s d, (do_POST env path fs).response = sendJson s d := by
  by_cases hp : path = "/transcribe"
  · subst hp
    rw [do_POST_transcribe]
    rcases ho : (postTry env fs).outcome with e | r
    · exact ⟨500, [("error", e)], by simp [ho]⟩
    · obtain ⟨t, ht⟩ := postTry_ok_shape env fs r ho
      exact ⟨200, [("text", t)], by simp [ho, ht]⟩
  · refine ⟨404, [("error", "not found")], ?_⟩
    unfold do_POST
    rw [if_pos hp]

/-- Every `do_GET` response is a `_send_json` response. -/
theorem do_GET_response_shape (path : String) :
    ∃ s d, do_GET path = sendJson s d := by
  unfold do_GET
  by_cases h : path = "/health"
  · exact ⟨200, [("status", "ready")], by rw [if_pos h]⟩
  · exact ⟨404, [("error", "not found")], by rw [if_neg h]⟩

/-! ### Claim theorems -/

/-- C1: a POST to a path other than `/transcribe` is answered 404 with a
not-found error body; a POST to `/transcribe` whose handling succeeds is
answered with the 200 response computed by the `try` block, whose body is a
JSON object with the single key `text` holding the transcript; and one whose
handling raises is answered 500 with a JSON object whose `error` key holds
the exception message. -/
theorem post_transcribe_dispatch (env : PostEnv) (path : String) (fs : Fs) :
    (path ≠ "/transcribe" →
      (do_POST env path fs).response = sendJson 404 [("error", "not found")]) ∧
    (∀ r, (postTry env fs).outcome = .ok r →
      (do_POST env "/transcribe" fs).response = r ∧
      r.status = 200 ∧ ∃ t, r.body = jsonDumps [("text", t)]) ∧
    (∀ e, (postTry env fs).outcome = .error e →
      (do_POST env "/transcribe" fs).response = sendJson 500 [("error", e)] ∧
      (do_POST env "/transcribe" fs).response.status = 500 ∧
      (do_POST env "/transcribe" fs).response.body = jsonDumps [("error", e)]) := by
  refine ⟨fun hp => ?_, fun r hr => ?_, fun e he => ?_⟩
  · unfold do_POST
    rw [if_pos hp]
  · obtain ⟨t, ht⟩ := postTry_ok_shape env fs r hr
    rw [do_POST_transcribe]
    refine ⟨by simp [hr], ?_, t, ?_⟩ <;> rw [ht] <;> rfl
  · rw [do_POST_transcribe]
    simp [he, sendJson_status, sendJson_body]

/-- C2: after the model has loaded, a GET on exactly `/health` is answered
200 with a ready-status JSON body, and a GET on any other path is answered
404 with a not-found error body. -/
theorem health_dispatch (path : String) :
    (path = "/health" →
      do_GET path = sendJson 200 [("status", "ready")] ∧
      (do_GET path).status = 200 ∧
      (do_GET path).body = jsonDumps [("status", "ready")]) ∧
    (path ≠ "/health" →
      do_GET path = sendJson 404 [("error", "not found")] ∧
      (do_GET path).status = 404 ∧
      (do_GET path).body = jsonDumps [("error", "not found")]) := by
  constructor
  · intro h
    have hg : do_GET path = sendJson 200 [("status", "ready")] := by
      unfold do_GET; rw [if_pos h]
    exact ⟨hg, by rw [hg, sendJson_status], by rw [hg, sendJson_body]⟩
  · intro h
    have hg : do_GET path = sendJson 404 [("error", "not found")] := by
      unfold do_GET; rw [if_neg h]
    exact ⟨hg, by rw [hg, sendJson_status], by rw [hg, sendJson_body]⟩

/-- C3: whatever temporary file a `/transcribe` request created no longer
exists in the filesystem the handler leaves behind, on success and on
failure alike. -/
theorem temp_file_removed (env : PostEnv) (fs : Fs) (p : String)
    (hp : (do_POST env "/transcribe" fs).tmpPath = some p)
    (hne : p ≠ "") :
    (do_POST env "/transcribe" fs).fs p = none := by
  rw [do_POST_transcribe] at hp ⊢
  simp only at hp ⊢
  rw [hp]
  show (if p ≠ "" ∧ ((postTry env fs).fs p).isSome then
      fsRemove (postTry env fs).fs p else (postTry env fs).fs) p = none
  by_cases hs : ((postTry env fs).fs p).isSome
  · rw [if_pos ⟨hne, hs⟩]
    exact fsRemove_self _ p
  · rw [if_neg (fun hc => hs hc.2)]
    exact Option.not_isSome_iff_eq_none.mp hs

/-- C4: whenever the `try` block of a `/transcribe` request raises, the
exception is caught and answered as a 500 response whose JSON body holds the
exception message under the key `error`; the handler always produces a
response (it is a total function), so the exception never propagates. -/
theorem exception_caught_500 (env : PostEnv) (fs : Fs) (e : String)
    (h : (postTry env fs).outcome = .error e) :
    (do_POST env "/transcribe" fs).response = sendJson 500 [("error", e)] ∧
    (do_POST env "/transcribe" fs).response.status = 500 ∧
    (do_POST env "/transcribe" fs).response.body = jsonDumps [("error", e)] := by
  rw [do_POST_transcribe]
  simp [h, sendJson_status, sendJson_body]

/-- C5: when the pipeline rejects the request body with an exception (as it
does on empty or malformed audio), the `/transcribe` request is answered 500
with the exception message under the key `error`, and in particular not
200. -/
theorem invalid_audio_500 (env : PostEnv) (fs : Fs) (n : Int) (p : String) (e : String)
    (hcl : getContentLength env.contentLengthHeader = .ok n)
    (hmk : env.mkstempResult = .ok p)
    (hw : env.writeResult = .ok ())
    (hpipe : env.pipeFn (pyRead env.stream n) = .error e) :
    (do_POST env "/transcribe" fs).response = sendJson 500 [("error", e)] ∧
    (do_POST env "/transcribe" fs).response.status = 500 ∧
    (do_POST env "/transcribe" fs).response.body = jsonDumps [("error", e)] ∧
    (do_POST env "/transcribe" fs).response.status ≠ 200 := by
  have h : (postTry env fs).outcome = .error e := by
    rw [postTry_pipe_error env fs n p () e hcl hmk hw hpipe]
  rw [do_POST_transcribe]
  simp [h, sendJson_status, sendJson_body]

/-- C6: when loading the model raises at startup, the process prints the
diagnostic message holding the exception message, the exception is re-raised
so startup ends in that exception, and the request-serving loop is never
reached. -/
theorem load_failure_aborts (load : Except String Unit) (e : String)
    (h : load = .error e) :
    (startup load).printed = [loadingMessage, loadFailureMessage e] ∧
    (startup load).outcome = .error e ∧
    reachesServeLoop load = false := by
  subst h
  exact ⟨rfl, rfl, rfl⟩

/-- C7: whenever a `/transcribe` request reaches the pipeline, the bytes the
pipeline receives (the contents of the temporary file) are exactly the bytes
read from the request body — the first `Content-Length` bytes of the
stream — with no transformation. -/
theorem audio_unmodified (env : PostEnv) (fs : Fs) (n : Int) (b : List Byte)
    (hcl : getContentLength env.contentLengthHeader = .ok n)
    (hb : (do_POST env "/transcribe" fs).piped = some b) :
    b = pyRead env.stream n := by
  rw [do_POST_transcribe] at hb
  simp only at hb
  rcases hmk : env.mkstempResult with e | p
  · simp [postTry, hcl, hmk] at hb
  · rcases hw : env.writeResult with e | u
    · simp [postTry, hcl, hmk, hw] at hb
    · rw [postTry_piped env fs n p u hcl hmk hw] at hb
      injection hb with hb
      exact hb.symm

/-- C8: a missing `Content-Length` header is read as the integer 0, so zero
body bytes are read and the pipeline receives an empty file, the request
being processed rather than rejected (the answer is never a 400); a header
that `int()` cannot parse raises, and the request is answered 500 with the
`ValueError` message under the key `error`. -/
theorem content_length_parsing (env : PostEnv) (fs : Fs) :
    (env.contentLengthHeader = none →
      getContentLength env.contentLengthHeader = .ok 0 ∧
      pyRead env.stream 0 = [] ∧
      (∀ p, env.mkstempResult = .ok p → env.writeResult = .ok () →
        (do_POST env "/transcribe" fs).piped = some [] ∧
        (do_POST env "/transcribe" fs).response.status ≠ 400)) ∧
    (∀ s e, env.contentLengthHeader = some s → pyIntOfString s = .error e →
      (do_POST env "/transcribe" fs).response = sendJson 500 [("error", e)]) := by
  constructor
  · intro hnone
    have hcl : getContentLength env.contentLengthHeader = .ok 0 := by
      rw [hnone]; rfl
    refine ⟨hcl, pyRead_zero env.stream, fun p hmk hw => ⟨?_, ?_⟩⟩
    · rw [do_POST_transcribe]
      simp only
      rw [postTry_piped env fs 0 p () hcl hmk hw, pyRead_zero]
    · obtain ⟨s, d, hd⟩ := do_POST_response_shape env "/transcribe" fs
      rcases hpipe : env.pipeFn (pyRead env.stream 0) with e | result
      · have h : (postTry env fs).outcome = .error e := by
          rw [postTry_pipe_error env fs 0 p () e hcl hmk hw hpipe]
        rw [do_POST_transcribe]
        simp [h, sendJson_status]
      · have h : (postTry env fs).outcome = .ok (sendJson 200 [("text", result.getD "")]) := by
          rw [postTry_pipe_ok env fs 0 p () result hcl hmk hw hpipe]
        rw [do_POST_transcribe]
        simp [h, sendJson_status]
  · intro s e hs he
    have h : (postTry env fs).outcome = .error e := by
      unfold postTry
      rw [hs]
      simp only [getContentLength, he]
    rw [do_POST_transcribe]
    simp [h]

/-- C9: when the pipeline succeeds but returns a falsy result, the
`/transcribe` request is answered 200 with a JSON body whose `text` key holds
the empty string. -/
theorem falsy_result_empty_text (env : PostEnv) (fs : Fs) (n : Int) (p : String)
    (hcl : getContentLength env.contentLengthHeader = .ok n)
    (hmk : env.mkstempResult = .ok p)
    (hw : env.writeResult = .ok ())
    (hpipe : env.pipeFn (pyRead env.stream n) = .ok none) :
    (do_POST env "/transcribe" fs).response = sendJson 200 [("text", "")] ∧
    (do_POST env "/transcribe" fs).response.status = 200 ∧
    (do_POST env "/transcribe" fs).response.body = jsonDumps [("text", "")] := by
  have h : (postTry env fs).outcome = .ok (sendJson 200 [("text", "")]) := by
    rw [postTry_pipe_ok env fs n p () none hcl hmk hw hpipe]
    rfl
  rw [do_POST_transcribe]
  simp [h, sendJson_status, sendJson_body]

/-- C10: every response of both handlers carries a `Content-Type` header of
`application/json` and a `Content-Length` header equal to the byte length of
the UTF-8 encoding of its JSON body. -/
theorem responses_json_headers (path : String) (env : PostEnv) (fs : Fs) :
    (headerValue (do_GET path) "Content-Type" = some "application/json" ∧
      headerValue (do_GET path) "Content-Length" =
        some (toString (do_GET path).body.utf8ByteSize)) ∧
    (headerValue (do_POST env path fs).response "Content-Type" = some "application/json" ∧
      headerValue (do_POST env path fs).response "Content-Length" =
        some (toString (do_POST env path fs).response.body.utf8ByteSize)) := by
  obtain ⟨s, d, hd⟩ := do_GET_response_shape path
  obtain ⟨s', d', hd'⟩ := do_POST_response_shape env path fs
  rw [hd, hd']
  exact ⟨⟨sendJson_content_type s d, sendJson_content_length s d⟩,
    ⟨sendJson_content_type s' d', sendJson_content_length s' d'⟩⟩

/-! ### Witnesses -/

/-- Witness for C1 at concrete requests: a wrong path, a failing pipeline and
a succeeding pipeline. -/
theorem post_transcribe_dispatch_witness :
    (do_POST envPipeOk "/nope" fs0).response = sendJson 404 [("error", "not found")] ∧
    (do_POST envPipeErr "/transcribe" fs0).response = sendJson 500 [("error", "bad audio")] ∧
    (do_POST envPipeOk "/transcribe" fs0).response = sendJson 200 [("text", "hi")] :=
  ⟨(post_transcribe_dispatch envPipeOk "/nope" fs0).1 (by decide),
   ((post_transcribe_dispatch envPipeErr "/transcribe" fs0).2.2 "bad audio" (by decide)).1,
   ((post_transcribe_dispatch envPipeOk "/transcribe" fs0).2.1
      (sendJson 200 [("text", "hi")]) (by decide)).1⟩

/-- Witness for C2 at the health path and at another path. -/
theorem health_dispatch_witness :
    do_GET "/health" = sendJson 200 [("status", "ready")] ∧
    do_GET "/metrics" = sendJson 404 [("error", "not found")] :=
  ⟨((health_dispatch "/health").1 rfl).1,
   ((health_dispatch "/metrics").2 (by decide)).1⟩

/-- Witness for C3: the failing request created the temporary file and the
final filesystem no longer holds it. -/
theorem temp_file_removed_witness :
    (do_POST envPipeErr "/transcribe" fs0).tmpPath = some tmpA ∧ tmpA ≠ "" ∧
    (do_POST envPipeErr "/transcribe" fs0).fs tmpA = none :=
  ⟨by decide, by decide,
   temp_file_removed envPipeErr fs0 tmpA (by decide) (by decide)⟩

/-- Witness for C4: the pipeline exception of the failing request is caught
and answered as a 500. -/
theorem exception_caught_500_witness :
    (postTry envPipeErr fs0).outcome = Except.error "bad audio" ∧
    (do_POST envPipeErr "/transcribe" fs0).response.status = 500 :=
  ⟨by decide,
   (exception_caught_500 envPipeErr fs0 "bad audio" (by decide)).2.1⟩

/-- Witness for C5: a request the pipeline rejects is answered 500 and not
200. -/
theorem invalid_audio_500_witness :
    envPipeErr.pipeFn (pyRead envPipeErr.stream 2) = Except.error "bad audio" ∧
    (do_POST envPipeErr "/transcribe" fs0).response = sendJson 500 [("error", "bad audio")] ∧
    (do_POST envPipeErr "/transcribe" fs0).response.status ≠ 200 :=
  ⟨by decide,
   (invalid_audio_500 envPipeErr fs0 2 tmpA "bad audio"
      (by decide) (by decide) (by decide) (by decide)).1,
   (invalid_audio_500 envPipeErr fs0 2 tmpA "bad audio"
      (by decide) (by decide) (by decide) (by decide)).2.2.2⟩

/-- Witness for C6 at a concrete load failure. -/
theorem load_failure_aborts_witness :
    (startup (Except.error "no model")).printed =
      [loadingMessage, loadFailureMessage "no model"] ∧
    reachesServeLoop (Except.error "no model") = false :=
  ⟨(load_failure_aborts (Except.error "no model") "no model" rfl).1,
   (load_failure_aborts (Except.error "no model") "no model" rfl).2.2⟩

/-- Witness for C7: the succeeding request pipes exactly the first three body
bytes. -/
theorem audio_unmodified_witness :
    (do_POST envPipeOk "/transcribe" fs0).piped = some [10, 20, 30] ∧
    [10, 20, 30] = pyRead envPipeOk.stream 3 :=
  ⟨by decide,
   audio_unmodified envPipeOk fs0 3 [10, 20, 30] (by decide) (by decide)⟩

/-- Witness for C8: the request without a `Content-Length` header pipes an
empty file and is not answered 400, and the request whose header is `"abc"`
is answered 500 with the `ValueError` message. -/
theorem content_length_parsing_witness :
    envPipeNone.contentLengthHeader = none ∧
    (do_POST envPipeNone "/transcribe" fs0).piped = some [] ∧
    (do_POST envPipeNone "/transcribe" fs0).response.status ≠ 400 ∧
    pyIntOfString "abc" = Except.error (intErrorMessage "abc") ∧
    (do_POST envBadLen "/transcribe" fs0).response =
      sendJson 500 [("error", intErrorMessage "abc")] :=
  ⟨rfl,
   (((content_length_parsing envPipeNone fs0).1 rfl).2.2 tmpA (by decide) (by decide)).1,
   (((content_length_parsing envPipeNone fs0).1 rfl).2.2 tmpA (by decide) (by decide)).2,
   by decide,
   (content_length_parsing envBadLen fs0).2 "abc" (intErrorMessage "abc") rfl (by decide)⟩

/-- Witness for C9: a falsy pipeline result yields a 200 with empty text. -/
theorem falsy_result_empty_text_witness :
    envPipeNone.pipeFn (pyRead envPipeNone.stream 0) = Except.ok none ∧
    (do_POST envPipeNone "/transcribe" fs0).response = sendJson 200 [("text", "")] :=
  ⟨by decide,
   (falsy_result_empty_text envPipeNone fs0 0 tmpA
      (by decide) (by decide) (by decide) (by decide)).1⟩

end Flux
